import Mathlib

/-!
# Shallow embedding of the kuiper shared connection registry

This file embeds `src/pkg/connection/connection_pool.go` in Lean 4 and proves
properties of the registry's public surface: `CreateNamedConnection`,
`CreateNonStoredConnection`, `FetchConnection`, `DetachConnection`,
`DropNameConnection`, `ReloadConnection`, together with the internal helpers
`attachConnection`, `detachConnection`, `extractSelID` and the factory driver
`createNamedConnection` with its backoff retry loop.

Modelling decisions:
* Go maps (`connectionPool`, `failConnection`, the kv config store) are
  association lists `List (String × V)` with `alookup` / `ainsert` / `aerase`
  mirroring map read / write / delete.  A connection (`modules.Connection`)
  is opaque to the registry except for `Close`, so it is modelled by a `Nat`
  identity; `Close` invocations are recorded as explicit events.
* `refCount` is a Go `int`, modelled as `Int` (it is incremented and
  decremented without bounds checks in the source).
* The external collaborators — the kv store's write/delete outcome and the
  factory driver's outcome — are inputs of each operation (the Go code calls
  out to them and only branches on their error results; they never read or
  write the registry's own state).
* The factory driver itself (`createNamedConnectionDrv` below) is embedded
  separately with the backoff retry loop made explicit: the factory is a
  function from the attempt number to an outcome, and the elapsed-time budget
  of `backoff.Retry` is a fuel parameter.
-/

set_option linter.unusedVariables false

namespace Kuiper

/-- Values of the opaque property bag (`map[string]interface{}` in Go).
Only the distinction "string vs anything else" matters to the registry
(the type assertion `v.(string)` in `extractSelID`). -/
inductive PropVal where
  | str (s : String)
  | num (n : Int)
  | boolv (b : Bool)
  | nested
deriving DecidableEq, Repr

/-- A property bag: association list mirroring the Go map. -/
abbrev Props := List (String × PropVal)

/-- Go map read `m[k]`. -/
def alookup {V : Type} : List (String × V) → String → Option V
  | [], _ => none
  | (k, v) :: rest, key => if k = key then some v else alookup rest key

/-- Go map write `m[k] = v` (replace in place if present, else add). -/
def ainsert {V : Type} (key : String) (v : V) : List (String × V) → List (String × V)
  | [] => [(key, v)]
  | (k, w) :: rest => if k = key then (k, v) :: rest else (k, w) :: ainsert key v rest

/-- Go map delete `delete(m, k)`: no entry with that key remains. -/
def aerase {V : Type} (key : String) : List (String × V) → List (String × V)
  | [] => []
  | (k, w) :: rest => if k = key then aerase key rest else (k, w) :: aerase key rest

/-- `ConnectionMeta` of the Go source: a registry record.  `conn` is the
opaque connection identity; `refCount` starts at the Go zero value 0. -/
structure ConnectionMeta where
  ID : String
  Typ : String
  Props : Props
  conn : Nat
  refCount : Int
deriving DecidableEq, Repr

/-- The state of the `ConnectionManager` singleton plus the kv config store
it writes through (`conf.WriteCfgIntoKVStorage` / `conf.DropCfgKeyFromStorage`
under namespace "connections", composite key `connections.<typ>.<id>`). -/
structure CMState where
  connectionPool : List (String × ConnectionMeta)
  failConnection : List (String × String)
  kvstore : List (String × Props)
deriving DecidableEq, Repr

/-- Which call site invoked `Close` on a connection. -/
inductive ClosePath where
  | anonDetach
  | drop
deriving DecidableEq, Repr

/-- Observable event: `conn.Close(ctx)` was invoked on connection `conn` of
the record keyed `id`, whose `refCount` was `rc` at the moment of the call. -/
inductive Event where
  | closeEv (conn : Nat) (id : String) (rc : Int) (path : ClosePath)
deriving DecidableEq, Repr

/-- Fresh registry (`InitConnectionManager`), with an empty store. -/
def initState : CMState := ⟨[], [], []⟩

/-- `extractSelID` of the Go source: reserved key `connectionSelector`,
returning "" when the bag is empty, the key is absent, or the value fails
the string type assertion. -/
def extractSelID (props : Props) : String :=
  if props = [] then ""
  else
    match alookup props "connectionSelector" with
    | none => ""
    | some (PropVal.str id) => id
    | some _ => ""

/-- `attachConnection` of the Go source (write lock held): look up the
shared record, bump its `refCount`, hand back its connection. -/
def attachConnection (id : String) (s : CMState) :
    Except String Nat × CMState :=
  if id = "" then (.error "connection id should be defined", s)
  else
    match alookup s.connectionPool id with
    | none => (.error ("connection " ++ id ++ " not existed"), s)
    | some meta =>
        (.ok meta.conn,
         { s with connectionPool :=
             ainsert id { meta with refCount := meta.refCount + 1 } s.connectionPool })

/-- `detachConnection` of the Go source: with `remove` (anonymous path) it
closes and deletes the record unconditionally; without it (shared path) it
decrements `refCount`.  Missing ids are silent no-ops. -/
def detachConnection (id : String) (remove : Bool) (s : CMState) :
    CMState × List Event :=
  match alookup s.connectionPool id with
  | none => (s, [])
  | some meta =>
    if remove then
      ({ s with connectionPool := aerase id s.connectionPool },
       [Event.closeEv meta.conn id meta.refCount ClosePath.anonDetach])
    else
      ({ s with connectionPool :=
           ainsert id { meta with refCount := meta.refCount - 1 } s.connectionPool },
       [])

/-- `DetachConnection` of the Go source: selector absent (or empty) detaches
the caller's `id` as an anonymous record, selector present decrements the
selected shared record. -/
def DetachConnection (id : String) (props : Props) (s : CMState) :
    Except String Unit × CMState × List Event :=
  if id = "" then (.error "connection id should be defined", s, [])
  else
    let selID := extractSelID props
    if selID = "" then
      let r := detachConnection id true s
      (.ok (), r.1, r.2)
    else
      let r := detachConnection selID false s
      (.ok (), r.1, r.2)

/-- `CreateNamedConnection` of the Go source.  `storeErr` is the outcome of
`storeConnectionMeta` (`none` = the kv write succeeded), `driver` the outcome
of the factory driver `createNamedConnection`. -/
def CreateNamedConnection (id typ : String) (props : Props)
    (storeErr : Option String) (driver : Except String Nat) (s : CMState) :
    Except String Nat × CMState :=
  if id = "" ∨ typ = "" then (.error "connection id and type should be defined", s)
  else
    match alookup s.connectionPool id with
    | some _ => (.error ("connection " ++ id ++ " already been created"), s)
    | none =>
      match storeErr with
      | some e => (.error e, s)
      | none =>
        let kv1 := ainsert ("connections." ++ typ ++ "." ++ id) props s.kvstore
        let s1 := { s with kvstore := kv1 }
        match driver with
        | .error e => (.error e, s1)
        | .ok c =>
          let meta : ConnectionMeta := ⟨id, typ, props, c, 0⟩
          let fc := if (alookup s1.failConnection id).isSome
                    then aerase id s1.failConnection
                    else s1.failConnection
          let pool1 := ainsert id meta s1.connectionPool
          (.ok c, { s1 with connectionPool := pool1, failConnection := fc })

/-- `CreateNonStoredConnection` of the Go source: like the named variant but
with no store write and no failed-table cleanup. -/
def CreateNonStoredConnection (id typ : String) (props : Props)
    (driver : Except String Nat) (s : CMState) :
    Except String Nat × CMState :=
  if id = "" ∨ typ = "" then (.error "connection id and type should be defined", s)
  else
    match alookup s.connectionPool id with
    | some _ => (.error ("connection " ++ id ++ " already been created"), s)
    | none =>
      match driver with
      | .error e => (.error e, s)
      | .ok c =>
        let meta : ConnectionMeta := ⟨id, typ, props, c, 0⟩
        (.ok c, { s with connectionPool := ainsert id meta s.connectionPool })

/-- `FetchConnection` of the Go source: no (or empty) selector delegates to
`CreateNonStoredConnection` under the caller's id; a selector attaches. -/
def FetchConnection (id typ : String) (props : Props)
    (driver : Except String Nat) (s : CMState) :
    Except String Nat × CMState :=
  if id = "" then (.error "connection id should be defined", s)
  else
    let selID := extractSelID props
    if selID = "" then CreateNonStoredConnection id typ props driver s
    else attachConnection selID s

/-- `DropNameConnection` of the Go source.  `dropErr` is the outcome of
`dropConnectionStore` (`none` = the kv delete succeeded). -/
def DropNameConnection (selId : String) (dropErr : Option String) (s : CMState) :
    Except String Unit × CMState × List Event :=
  if selId = "" then (.error "connection id should be defined", s, [])
  else
    match alookup s.connectionPool selId with
    | none =>
      match alookup s.failConnection selId with
      | some _ => (.ok (), { s with failConnection := aerase selId s.failConnection }, [])
      | none => (.ok (), s, [])
    | some meta =>
      if meta.refCount > 0 then
        (.error ("connection " ++ selId ++ " can't be dropped due to reference"), s, [])
      else
        match dropErr with
        | some e => (.error ("drop connection " ++ selId ++ " failed, err:" ++ e), s, [])
        | none =>
          (.ok (),
           { s with connectionPool := aerase selId s.connectionPool,
                    kvstore := aerase ("connections." ++ meta.Typ ++ "." ++ selId) s.kvstore },
           [Event.closeEv meta.conn selId meta.refCount ClosePath.drop])

/-- Helper for `splitDot`: accumulate the current segment (reversed). -/
def splitDotAux : List Char → List Char → List String
  | [], acc => [String.mk acc.reverse]
  | c :: rest, acc =>
    if c = '.' then String.mk acc.reverse :: splitDotAux rest []
    else splitDotAux rest (c :: acc)

/-- Go's `strings.Split(key, ".")`: the segments of `s` between the dots
(one more segment than there are dots; empty segments are kept). -/
def splitDot (s : String) : List String := splitDotAux s.data []

/-- One iteration of `ReloadConnection`'s loop over the listed store entries:
keys that do not split into exactly three `.`-separated segments are skipped;
a factory failure records the error string in `failConnection`; a success
inserts the rebuilt record into `connectionPool`. -/
def reloadStep (driver : String → String → Props → Except String Nat)
    (s : CMState) (entry : String × Props) : CMState :=
  let names := splitDot entry.1
  if names.length ≠ 3 then s
  else
    let typ := names.getD 1 ""
    let id := names.getD 2 ""
    match driver typ id entry.2 with
    | .error e => { s with failConnection := ainsert id e s.failConnection }
    | .ok c =>
      { s with connectionPool :=
          ainsert id (⟨id, typ, entry.2, c, 0⟩ : ConnectionMeta) s.connectionPool }

/-- `ReloadConnection` of the Go source: fold the loop body over the entries
listed from the store (in the map's iteration order); `driver` gives the
factory driver's outcome for each `(typ, id, props)`. -/
def ReloadConnection (driver : String → String → Props → Except String Nat)
    (entries : List (String × Props)) (s : CMState) : CMState :=
  entries.foldl (reloadStep driver) s

/-! ## The factory driver and its retry loop -/

/-- A factory error together with its `errorx.IsIOError` classification
(the transient / permanent partition consulted by the retry closure). -/
structure ConnError where
  msg : String
  isIO : Bool
deriving DecidableEq, Repr

/-- A registered factory: outcome per attempt number (each call of the
retry closure invokes the factory once). -/
abbrev Factory := Nat → Except ConnError Nat

/-- The `backoff.Retry` loop of `createNamedConnection`: call the factory;
success stops; a transient (`IsIOError`) failure is retried while budget
(`fuel`) remains; a non-transient failure is wrapped `backoff.Permanent`,
which stops the loop at once and surfaces the original error.  The second
component counts factory invocations made so far (starting from `attempt`). -/
def retryRun (f : Factory) (attempt fuel : Nat) : Except ConnError Nat × Nat :=
  match f attempt with
  | .ok c => (.ok c, attempt + 1)
  | .error e =>
    if e.isIO then
      match fuel with
      | 0 => (.error e, attempt + 1)
      | fuel' + 1 => retryRun f (attempt + 1) fuel'
    else (.error e, attempt + 1)
termination_by fuel

/-- Go's `strings.ToLower` as used on connection type names (character-wise
lowercasing; type names are ASCII). -/
def strToLower (s : String) : String := ⟨s.data.map Char.toLower⟩

/-- The factory driver `createNamedConnection` of the Go source:
lowercase the type, look it up in `modules.ConnectionRegister`; absence
fails immediately with "unknown connection type" and zero factory calls;
otherwise run the factory under the retry loop.  The second component is
the number of factory invocations. -/
def createNamedConnectionDrv (register : List (String × Factory))
    (typ : String) (fuel : Nat) : Except ConnError Nat × Nat :=
  match alookup register (strToLower typ) with
  | none => (.error ⟨"unknown connection type", false⟩, 0)
  | some f => retryRun f 0 fuel

/-! ## Association-list lemmas -/

theorem alookup_ainsert_self {V : Type} (k : String) (v : V)
    (l : List (String × V)) : alookup (ainsert k v l) k = some v := by
  induction l with
  | nil => simp [ainsert, alookup]
  | cons p rest ih =>
    obtain ⟨a, w⟩ := p
    by_cases h : a = k <;> simp [ainsert, alookup, h, ih]

theorem alookup_ainsert_ne {V : Type} (k j : String) (v : V)
    (l : List (String × V)) (h : j ≠ k) :
    alookup (ainsert k v l) j = alookup l j := by
  induction l with
  | nil => simp [ainsert, alookup, Ne.symm h]
  | cons p rest ih =>
    obtain ⟨a, w⟩ := p
    by_cases hak : a = k
    · subst hak
      simp [ainsert, alookup, Ne.symm h]
    · by_cases haj : a = j <;> simp [ainsert, alookup, hak, haj, ih, h, Ne.symm h]

theorem alookup_aerase_self {V : Type} (k : String) (l : List (String × V)) :
    alookup (aerase k l) k = none := by
  induction l with
  | nil => simp [aerase, alookup]
  | cons p rest ih =>
    obtain ⟨a, w⟩ := p
    by_cases h : a = k <;> simp [aerase, alookup, h, ih]

theorem alookup_aerase_ne {V : Type} (k j : String) (l : List (String × V))
    (h : j ≠ k) : alookup (aerase k l) j = alookup l j := by
  induction l with
  | nil => simp [aerase, alookup]
  | cons p rest ih =>
    obtain ⟨a, w⟩ := p
    by_cases hak : a = k
    · subst hak
      simp [aerase, alookup, Ne.symm h, ih]
    · by_cases haj : a = j <;> simp [aerase, alookup, hak, haj, ih, h, Ne.symm h]

theorem mem_ainsert {V : Type} (p : String × V) (k : String) (v : V)
    (l : List (String × V)) (h : p ∈ ainsert k v l) : p = (k, v) ∨ p ∈ l := by
  induction l with
  | nil => simpa [ainsert] using h
  | cons q rest ih =>
    obtain ⟨a, w⟩ := q
    by_cases hak : a = k
    · subst hak
      rcases (by simpa [ainsert] using h : p = (a, v) ∨ p ∈ rest) with h1 | h1
      · exact Or.inl h1
      · exact Or.inr (List.mem_cons_of_mem _ h1)
    · rcases (by simpa [ainsert, hak] using h : p = (a, w) ∨ p ∈ ainsert k v rest) with h1 | h1
      · exact Or.inr (by simp [h1])
      · rcases ih h1 with h2 | h2
        · exact Or.inl h2
        · exact Or.inr (List.mem_cons_of_mem _ h2)

theorem mem_aerase {V : Type} (p : String × V) (k : String)
    (l : List (String × V)) (h : p ∈ aerase k l) : p ∈ l := by
  induction l with
  | nil => simp [aerase] at h
  | cons q rest ih =>
    obtain ⟨a, w⟩ := q
    by_cases hak : a = k
    · exact List.mem_cons_of_mem _ (ih (by simpa [aerase, hak] using h))
    · rcases (by simpa [aerase, hak] using h : p = (a, w) ∨ p ∈ aerase k rest) with h1 | h1
      · simp [h1]
      · exact List.mem_cons_of_mem _ (ih h1)

theorem alookup_mem {V : Type} (k : String) (v : V) (l : List (String × V))
    (h : alookup l k = some v) : (k, v) ∈ l := by
  induction l with
  | nil => simp [alookup] at h
  | cons q rest ih =>
    obtain ⟨a, w⟩ := q
    by_cases hak : a = k
    · subst hak
      simp [alookup] at h
      simp [h]
    · simp [alookup, hak] at h
      exact List.mem_cons_of_mem _ (ih h)

/-! ## Registry invariants -/

/-- Every record in the live table has a non-negative reference count. -/
def NonNegRC (s : CMState) : Prop :=
  ∀ p ∈ s.connectionPool, 0 ≤ (p.2).refCount

/-- The live and failed tables are disjoint on `id`: no live record's key has
an entry in the failed table. -/
def DisjointTables (s : CMState) : Prop :=
  ∀ p ∈ s.connectionPool, alookup s.failConnection p.1 = none

instance (s : CMState) : Decidable (NonNegRC s) := by
  unfold NonNegRC; infer_instance

instance (s : CMState) : Decidable (DisjointTables s) := by
  unfold DisjointTables; infer_instance

/-! ## Branch equations for the operations -/

theorem createNamed_dup (id typ : String) (props : Props) (se : Option String)
    (dr : Except String Nat) (s : CMState) (m : ConnectionMeta)
    (h0 : id ≠ "") (h0' : typ ≠ "") (h1 : alookup s.connectionPool id = some m) :
    CreateNamedConnection id typ props se dr s =
      (.error ("connection " ++ id ++ " already been created"), s) := by
  simp [CreateNamedConnection, h0, h0', h1]

theorem createNamed_storeErr (id typ : String) (props : Props) (e : String)
    (dr : Except String Nat) (s : CMState)
    (h0 : id ≠ "") (h0' : typ ≠ "") (h1 : alookup s.connectionPool id = none) :
    CreateNamedConnection id typ props (some e) dr s = (.error e, s) := by
  simp [CreateNamedConnection, h0, h0', h1]

theorem createNamed_driverErr (id typ : String) (props : Props) (e : String)
    (s : CMState)
    (h0 : id ≠ "") (h0' : typ ≠ "") (h1 : alookup s.connectionPool id = none) :
    CreateNamedConnection id typ props none (.error e) s =
      (.error e,
       { s with kvstore := ainsert ("connections." ++ typ ++ "." ++ id) props s.kvstore }) := by
  simp [CreateNamedConnection, h0, h0', h1]

theorem createNamed_ok (id typ : String) (props : Props) (c : Nat) (s : CMState)
    (h0 : id ≠ "") (h0' : typ ≠ "") (h1 : alookup s.connectionPool id = none) :
    CreateNamedConnection id typ props none (.ok c) s =
      (.ok c,
       ⟨ainsert id ⟨id, typ, props, c, 0⟩ s.connectionPool,
        if (alookup s.failConnection id).isSome then aerase id s.failConnection
        else s.failConnection,
        ainsert ("connections." ++ typ ++ "." ++ id) props s.kvstore⟩) := by
  simp [CreateNamedConnection, h0, h0', h1]

theorem createNonStored_dup (id typ : String) (props : Props)
    (dr : Except String Nat) (s : CMState) (m : ConnectionMeta)
    (h0 : id ≠ "") (h0' : typ ≠ "") (h1 : alookup s.connectionPool id = some m) :
    CreateNonStoredConnection id typ props dr s =
      (.error ("connection " ++ id ++ " already been created"), s) := by
  simp [CreateNonStoredConnection, h0, h0', h1]

theorem createNonStored_driverErr (id typ : String) (props : Props) (e : String)
    (s : CMState)
    (h0 : id ≠ "") (h0' : typ ≠ "") (h1 : alookup s.connectionPool id = none) :
    CreateNonStoredConnection id typ props (.error e) s = (.error e, s) := by
  simp [CreateNonStoredConnection, h0, h0', h1]

theorem createNonStored_ok (id typ : String) (props : Props) (c : Nat) (s : CMState)
    (h0 : id ≠ "") (h0' : typ ≠ "") (h1 : alookup s.connectionPool id = none) :
    CreateNonStoredConnection id typ props (.ok c) s =
      (.ok c, { s with connectionPool := ainsert id ⟨id, typ, props, c, 0⟩ s.connectionPool }) := by
  simp [CreateNonStoredConnection, h0, h0', h1]

theorem fetch_noSel (id typ : String) (props : Props) (dr : Except String Nat)
    (s : CMState) (h0 : id ≠ "") (h1 : extractSelID props = "") :
    FetchConnection id typ props dr s = CreateNonStoredConnection id typ props dr s := by
  simp [FetchConnection, h0, h1]

theorem fetch_sel (id typ : String) (props : Props) (dr : Except String Nat)
    (s : CMState) (h0 : id ≠ "") (h1 : extractSelID props ≠ "") :
    FetchConnection id typ props dr s = attachConnection (extractSelID props) s := by
  simp [FetchConnection, h0, h1]

theorem attach_missing (id : String) (s : CMState)
    (h0 : id ≠ "") (h1 : alookup s.connectionPool id = none) :
    attachConnection id s = (.error ("connection " ++ id ++ " not existed"), s) := by
  simp [attachConnection, h0, h1]

theorem attach_ok (id : String) (s : CMState) (m : ConnectionMeta)
    (h0 : id ≠ "") (h1 : alookup s.connectionPool id = some m) :
    attachConnection id s =
      (.ok m.conn,
       { s with connectionPool :=
           ainsert id { m with refCount := m.refCount + 1 } s.connectionPool }) := by
  simp [attachConnection, h0, h1]

theorem detachLow_missing (id : String) (remove : Bool) (s : CMState)
    (h1 : alookup s.connectionPool id = none) :
    detachConnection id remove s = (s, []) := by
  simp [detachConnection, h1]

theorem detachLow_remove (id : String) (s : CMState) (m : ConnectionMeta)
    (h1 : alookup s.connectionPool id = some m) :
    detachConnection id true s =
      ({ s with connectionPool := aerase id s.connectionPool },
       [Event.closeEv m.conn id m.refCount ClosePath.anonDetach]) := by
  simp [detachConnection, h1]

theorem detachLow_shared (id : String) (s : CMState) (m : ConnectionMeta)
    (h1 : alookup s.connectionPool id = some m) :
    detachConnection id false s =
      ({ s with connectionPool :=
          ainsert id { m with refCount := m.refCount - 1 } s.connectionPool },
       []) := by
  simp [detachConnection, h1]

theorem detach_noSel (id : String) (props : Props) (s : CMState)
    (h0 : id ≠ "") (h1 : extractSelID props = "") :
    DetachConnection id props s =
      (.ok (), (detachConnection id true s).1, (detachConnection id true s).2) := by
  simp [DetachConnection, h0, h1]

theorem detach_sel (id : String) (props : Props) (s : CMState)
    (h0 : id ≠ "") (h1 : extractSelID props ≠ "") :
    DetachConnection id props s =
      (.ok (), (detachConnection (extractSelID props) false s).1,
       (detachConnection (extractSelID props) false s).2) := by
  simp [DetachConnection, h0, h1]

theorem drop_failTable (selId : String) (de : Option String) (s : CMState)
    (h0 : selId ≠ "") (h1 : alookup s.connectionPool selId = none)
    (h2 : (alookup s.failConnection selId).isSome) :
    DropNameConnection selId de s =
      (.ok (), { s with failConnection := aerase selId s.failConnection }, []) := by
  rcases h3 : alookup s.failConnection selId with _ | v
  · rw [h3] at h2; simp at h2
  · simp [DropNameConnection, h0, h1, h3]

theorem drop_absent (selId : String) (de : Option String) (s : CMState)
    (h0 : selId ≠ "") (h1 : alookup s.connectionPool selId = none)
    (h2 : alookup s.failConnection selId = none) :
    DropNameConnection selId de s = (.ok (), s, []) := by
  simp [DropNameConnection, h0, h1, h2]

theorem drop_referenced (selId : String) (de : Option String) (s : CMState)
    (m : ConnectionMeta) (h0 : selId ≠ "")
    (h1 : alookup s.connectionPool selId = some m) (h2 : m.refCount > 0) :
    DropNameConnection selId de s =
      (.error ("connection " ++ selId ++ " can't be dropped due to reference"), s, []) := by
  simp [DropNameConnection, h0, h1, h2]

theorem drop_storeErr (selId : String) (e : String) (s : CMState)
    (m : ConnectionMeta) (h0 : selId ≠ "")
    (h1 : alookup s.connectionPool selId = some m) (h2 : ¬m.refCount > 0) :
    DropNameConnection selId (some e) s =
      (.error ("drop connection " ++ selId ++ " failed, err:" ++ e), s, []) := by
  simp [DropNameConnection, h0, h1, h2]

theorem drop_ok (selId : String) (s : CMState) (m : ConnectionMeta)
    (h0 : selId ≠ "")
    (h1 : alookup s.connectionPool selId = some m) (h2 : ¬m.refCount > 0) :
    DropNameConnection selId none s =
      (.ok (),
       { s with connectionPool := aerase selId s.connectionPool,
                kvstore := aerase ("connections." ++ m.Typ ++ "." ++ selId) s.kvstore },
       [Event.closeEv m.conn selId m.refCount ClosePath.drop]) := by
  simp [DropNameConnection, h0, h1, h2]

theorem reloadStep_skip (driver : String → String → Props → Except String Nat)
    (s : CMState) (entry : String × Props)
    (h : (splitDot entry.1).length ≠ 3) : reloadStep driver s entry = s := by
  simp [reloadStep, h]

theorem reloadStep_fail (driver : String → String → Props → Except String Nat)
    (s : CMState) (entry : String × Props) (e : String)
    (h : (splitDot entry.1).length = 3)
    (hd : driver ((splitDot entry.1).getD 1 "") ((splitDot entry.1).getD 2 "")
            entry.2 = .error e) :
    reloadStep driver s entry =
      ⟨s.connectionPool,
       ainsert ((splitDot entry.1).getD 2 "") e s.failConnection,
       s.kvstore⟩ := by
  simp only [reloadStep]
  rw [if_neg (fun hc => hc h), hd]

theorem reloadStep_ok (driver : String → String → Props → Except String Nat)
    (s : CMState) (entry : String × Props) (c : Nat)
    (h : (splitDot entry.1).length = 3)
    (hd : driver ((splitDot entry.1).getD 1 "") ((splitDot entry.1).getD 2 "")
            entry.2 = .ok c) :
    reloadStep driver s entry =
      ⟨ainsert ((splitDot entry.1).getD 2 "")
         ⟨(splitDot entry.1).getD 2 "", (splitDot entry.1).getD 1 "", entry.2, c, 0⟩
         s.connectionPool,
       s.failConnection, s.kvstore⟩ := by
  simp only [reloadStep]
  rw [if_neg (fun hc => hc h), hd]

/-! ## Preservation of non-negative reference counts -/

theorem nonneg_createNamed (id typ : String) (props : Props) (se : Option String)
    (dr : Except String Nat) (s : CMState) (h : NonNegRC s) :
    NonNegRC (CreateNamedConnection id typ props se dr s).2 := by
  by_cases h0 : id = "" ∨ typ = ""
  · unfold CreateNamedConnection
    rw [if_pos h0]
    exact h
  · push_neg at h0
    obtain ⟨hid, htyp⟩ := h0
    rcases hp : alookup s.connectionPool id with _ | m
    · rcases se with _ | e
      · cases dr with
        | error e =>
          rw [createNamed_driverErr id typ props e s hid htyp hp]
          exact fun p hmem => h p hmem
        | ok c =>
          rw [createNamed_ok id typ props c s hid htyp hp]
          intro p hmem
          rcases mem_ainsert p id ⟨id, typ, props, c, 0⟩ s.connectionPool hmem with h1 | h1
          · rw [h1]
          · exact h p h1
      · rw [createNamed_storeErr id typ props e dr s hid htyp hp]
        exact h
    · rw [createNamed_dup id typ props se dr s m hid htyp hp]
      exact h

theorem nonneg_createNonStored (id typ : String) (props : Props)
    (dr : Except String Nat) (s : CMState) (h : NonNegRC s) :
    NonNegRC (CreateNonStoredConnection id typ props dr s).2 := by
  by_cases h0 : id = "" ∨ typ = ""
  · unfold CreateNonStoredConnection
    rw [if_pos h0]
    exact h
  · push_neg at h0
    obtain ⟨hid, htyp⟩ := h0
    rcases hp : alookup s.connectionPool id with _ | m
    · cases dr with
      | error e =>
        rw [createNonStored_driverErr id typ props e s hid htyp hp]
        exact h
      | ok c =>
        rw [createNonStored_ok id typ props c s hid htyp hp]
        intro p hmem
        rcases mem_ainsert p id ⟨id, typ, props, c, 0⟩ s.connectionPool hmem with h1 | h1
        · rw [h1]
        · exact h p h1
    · rw [createNonStored_dup id typ props dr s m hid htyp hp]
      exact h

theorem nonneg_attach (id : String) (s : CMState) (h : NonNegRC s) :
    NonNegRC (attachConnection id s).2 := by
  by_cases h0 : id = ""
  · unfold attachConnection
    rw [if_pos h0]
    exact h
  · rcases hp : alookup s.connectionPool id with _ | m
    · rw [attach_missing id s h0 hp]
      exact h
    · rw [attach_ok id s m h0 hp]
      intro p hmem
      rcases mem_ainsert p id { m with refCount := m.refCount + 1 }
          s.connectionPool hmem with h1 | h1
      · rw [h1]
        have := h (id, m) (alookup_mem id m s.connectionPool hp)
        simp only at this ⊢
        omega
      · exact h p h1

theorem nonneg_fetch (id typ : String) (props : Props)
    (dr : Except String Nat) (s : CMState) (h : NonNegRC s) :
    NonNegRC (FetchConnection id typ props dr s).2 := by
  by_cases h0 : id = ""
  · unfold FetchConnection
    rw [if_pos h0]
    exact h
  · by_cases h1 : extractSelID props = ""
    · rw [fetch_noSel id typ props dr s h0 h1]
      exact nonneg_createNonStored id typ props dr s h
    · rw [fetch_sel id typ props dr s h0 h1]
      exact nonneg_attach (extractSelID props) s h

theorem nonneg_detach (id : String) (props : Props) (s : CMState) (h : NonNegRC s)
    (hdec : ∀ m, extractSelID props ≠ "" →
      alookup s.connectionPool (extractSelID props) = some m → 1 ≤ m.refCount) :
    NonNegRC (DetachConnection id props s).2.1 := by
  by_cases h0 : id = ""
  · unfold DetachConnection
    rw [if_pos h0]
    exact h
  · by_cases h1 : extractSelID props = ""
    · rw [detach_noSel id props s h0 h1]
      rcases hp : alookup s.connectionPool id with _ | m
      · rw [detachLow_missing id true s hp]
        exact h
      · rw [detachLow_remove id s m hp]
        intro p hmem
        exact h p (mem_aerase p id s.connectionPool hmem)
    · rw [detach_sel id props s h0 h1]
      rcases hp : alookup s.connectionPool (extractSelID props) with _ | m
      · rw [detachLow_missing _ false s hp]
        exact h
      · rw [detachLow_shared _ s m hp]
        intro p hmem
        rcases mem_ainsert p (extractSelID props) { m with refCount := m.refCount - 1 }
            s.connectionPool hmem with hc | hc
        · rw [hc]
          have := hdec m h1 hp
          simp only at this ⊢
          omega
        · exact h p hc

theorem nonneg_drop (selId : String) (de : Option String) (s : CMState)
    (h : NonNegRC s) : NonNegRC (DropNameConnection selId de s).2.1 := by
  by_cases h0 : selId = ""
  · unfold DropNameConnection
    rw [if_pos h0]
    exact h
  · rcases hp : alookup s.connectionPool selId with _ | m
    · rcases hf : alookup s.failConnection selId with _ | v
      · rw [drop_absent selId de s h0 hp hf]
        exact h
      · rw [drop_failTable selId de s h0 hp (by rw [hf]; rfl)]
        exact fun p hmem => h p hmem
    · by_cases h2 : m.refCount > 0
      · rw [drop_referenced selId de s m h0 hp h2]
        exact h
      · rcases de with _ | e
        · rw [drop_ok selId s m h0 hp h2]
          intro p hmem
          exact h p (mem_aerase p selId s.connectionPool hmem)
        · rw [drop_storeErr selId e s m h0 hp h2]
          exact h

theorem nonneg_reloadStep (driver : String → String → Props → Except String Nat)
    (s : CMState) (entry : String × Props) (h : NonNegRC s) :
    NonNegRC (reloadStep driver s entry) := by
  by_cases hl : (splitDot entry.1).length = 3
  · rcases hd : driver ((splitDot entry.1).getD 1 "") ((splitDot entry.1).getD 2 "")
        entry.2 with e | c
    · rw [reloadStep_fail driver s entry e hl hd]
      exact fun p hmem => h p hmem
    · rw [reloadStep_ok driver s entry c hl hd]
      intro p hmem
      rcases mem_ainsert p _ _ s.connectionPool hmem with h1 | h1
      · rw [h1]
      · exact h p h1
  · rw [reloadStep_skip driver s entry hl]
    exact h

theorem nonneg_reload (driver : String → String → Props → Except String Nat)
    (entries : List (String × Props)) (s : CMState) (h : NonNegRC s) :
    NonNegRC (ReloadConnection driver entries s) := by
  induction entries generalizing s with
  | nil => exact h
  | cons e rest ih =>
    show NonNegRC (List.foldl (reloadStep driver) s (e :: rest))
    rw [List.foldl_cons]
    exact ih (reloadStep driver s e) (nonneg_reloadStep driver s e h)

/-! ## Preservation of live/failed disjointness -/

theorem disj_createNamed (id typ : String) (props : Props) (se : Option String)
    (dr : Except String Nat) (s : CMState) (h : DisjointTables s) :
    DisjointTables (CreateNamedConnection id typ props se dr s).2 := by
  by_cases h0 : id = "" ∨ typ = ""
  · unfold CreateNamedConnection
    rw [if_pos h0]
    exact h
  · push_neg at h0
    obtain ⟨hid, htyp⟩ := h0
    rcases hp : alookup s.connectionPool id with _ | m
    · rcases se with _ | e
      · cases dr with
        | error e =>
          rw [createNamed_driverErr id typ props e s hid htyp hp]
          exact fun p hmem => h p hmem
        | ok c =>
          rw [createNamed_ok id typ props c s hid htyp hp]
          intro p hmem
          rcases mem_ainsert p id ⟨id, typ, props, c, 0⟩ s.connectionPool hmem with h1 | h1
          · rw [h1]
            by_cases hf : (alookup s.failConnection id).isSome
            · rw [if_pos hf]
              exact alookup_aerase_self id s.failConnection
            · rw [if_neg hf]
              exact Option.not_isSome_iff_eq_none.mp hf
          · by_cases hf : (alookup s.failConnection id).isSome
            · rw [if_pos hf]
              by_cases hpi : p.1 = id
              · rw [hpi]
                exact alookup_aerase_self id s.failConnection
              · rw [alookup_aerase_ne id p.1 s.failConnection hpi]
                exact h p h1
            · rw [if_neg hf]
              exact h p h1
      · rw [createNamed_storeErr id typ props e dr s hid htyp hp]
        exact h
    · rw [createNamed_dup id typ props se dr s m hid htyp hp]
      exact h

theorem disj_createNonStored (id typ : String) (props : Props)
    (dr : Except String Nat) (s : CMState) (h : DisjointTables s)
    (hfail : alookup s.failConnection id = none) :
    DisjointTables (CreateNonStoredConnection id typ props dr s).2 := by
  by_cases h0 : id = "" ∨ typ = ""
  · unfold CreateNonStoredConnection
    rw [if_pos h0]
    exact h
  · push_neg at h0
    obtain ⟨hid, htyp⟩ := h0
    rcases hp : alookup s.connectionPool id with _ | m
    · cases dr with
      | error e =>
        rw [createNonStored_driverErr id typ props e s hid htyp hp]
        exact h
      | ok c =>
        rw [createNonStored_ok id typ props c s hid htyp hp]
        intro p hmem
        rcases mem_ainsert p id ⟨id, typ, props, c, 0⟩ s.connectionPool hmem with h1 | h1
        · rw [h1]
          exact hfail
        · exact h p h1
    · rw [createNonStored_dup id typ props dr s m hid htyp hp]
      exact h

theorem disj_attach (id : String) (s : CMState) (h : DisjointTables s) :
    DisjointTables (attachConnection id s).2 := by
  by_cases h0 : id = ""
  · unfold attachConnection
    rw [if_pos h0]
    exact h
  · rcases hp : alookup s.connectionPool id with _ | m
    · rw [attach_missing id s h0 hp]
      exact h
    · rw [attach_ok id s m h0 hp]
      intro p hmem
      rcases mem_ainsert p id { m with refCount := m.refCount + 1 }
          s.connectionPool hmem with h1 | h1
      · rw [h1]
        exact h (id, m) (alookup_mem id m s.connectionPool hp)
      · exact h p h1

theorem disj_fetch (id typ : String) (props : Props) (dr : Except String Nat)
    (s : CMState) (h : DisjointTables s)
    (hfail : alookup s.failConnection id = none) :
    DisjointTables (FetchConnection id typ props dr s).2 := by
  by_cases h0 : id = ""
  · unfold FetchConnection
    rw [if_pos h0]
    exact h
  · by_cases h1 : extractSelID props = ""
    · rw [fetch_noSel id typ props dr s h0 h1]
      exact disj_createNonStored id typ props dr s h hfail
    · rw [fetch_sel id typ props dr s h0 h1]
      exact disj_attach (extractSelID props) s h

theorem disj_detach (id : String) (props : Props) (s : CMState)
    (h : DisjointTables s) : DisjointTables (DetachConnection id props s).2.1 := by
  by_cases h0 : id = ""
  · unfold DetachConnection
    rw [if_pos h0]
    exact h
  · by_cases h1 : extractSelID props = ""
    · rw [detach_noSel id props s h0 h1]
      rcases hp : alookup s.connectionPool id with _ | m
      · rw [detachLow_missing id true s hp]
        exact h
      · rw [detachLow_remove id s m hp]
        intro p hmem
        exact h p (mem_aerase p id s.connectionPool hmem)
    · rw [detach_sel id props s h0 h1]
      rcases hp : alookup s.connectionPool (extractSelID props) with _ | m
      · rw [detachLow_missing _ false s hp]
        exact h
      · rw [detachLow_shared _ s m hp]
        intro p hmem
        rcases mem_ainsert p (extractSelID props) { m with refCount := m.refCount - 1 }
            s.connectionPool hmem with hc | hc
        · rw [hc]
          exact h (extractSelID props, m)
            (alookup_mem (extractSelID props) m s.connectionPool hp)
        · exact h p hc

theorem disj_drop (selId : String) (de : Option String) (s : CMState)
    (h : DisjointTables s) : DisjointTables (DropNameConnection selId de s).2.1 := by
  by_cases h0 : selId = ""
  · unfold DropNameConnection
    rw [if_pos h0]
    exact h
  · rcases hp : alookup s.connectionPool selId with _ | m
    · rcases hf : alookup s.failConnection selId with _ | v
      · rw [drop_absent selId de s h0 hp hf]
        exact h
      · rw [drop_failTable selId de s h0 hp (by rw [hf]; rfl)]
        intro p hmem
        by_cases hpi : p.1 = selId
        · rw [hpi]
          exact alookup_aerase_self selId s.failConnection
        · rw [alookup_aerase_ne selId p.1 s.failConnection hpi]
          exact h p hmem
    · by_cases h2 : m.refCount > 0
      · rw [drop_referenced selId de s m h0 hp h2]
        exact h
      · rcases de with _ | e
        · rw [drop_ok selId s m h0 hp h2]
          intro p hmem
          exact h p (mem_aerase p selId s.connectionPool hmem)
        · rw [drop_storeErr selId e s m h0 hp h2]
          exact h

/-! ## Close-event characterization -/

/-- Every `Close` emitted by `DropNameConnection` happens on the drop path
with the record's `refCount ≤ 0` at the moment of the call. -/
theorem drop_close_events (selId : String) (de : Option String) (s : CMState) :
    ∀ e ∈ (DropNameConnection selId de s).2.2,
      ∃ c i rc, e = Event.closeEv c i rc ClosePath.drop ∧ rc ≤ 0 := by
  intro ev hev
  by_cases h0 : selId = ""
  · unfold DropNameConnection at hev
    rw [if_pos h0] at hev
    simp at hev
  · rcases hp : alookup s.connectionPool selId with _ | m
    · rcases hf : alookup s.failConnection selId with _ | v
      · rw [drop_absent selId de s h0 hp hf] at hev
        simp at hev
      · rw [drop_failTable selId de s h0 hp (by rw [hf]; rfl)] at hev
        simp at hev
    · by_cases h2 : m.refCount > 0
      · rw [drop_referenced selId de s m h0 hp h2] at hev
        simp at hev
      · rcases de with _ | e
        · rw [drop_ok selId s m h0 hp h2] at hev
          simp at hev
          exact ⟨m.conn, selId, m.refCount, hev, by omega⟩
        · rw [drop_storeErr selId e s m h0 hp h2] at hev
          simp at hev

/-- Every `Close` emitted by `DetachConnection` happens on the
anonymous-detach path (the caller's own id, regardless of `refCount`). -/
theorem detach_close_events (id : String) (props : Props) (s : CMState) :
    ∀ e ∈ (DetachConnection id props s).2.2,
      ∃ c rc, e = Event.closeEv c id rc ClosePath.anonDetach := by
  intro ev hev
  by_cases h0 : id = ""
  · unfold DetachConnection at hev
    rw [if_pos h0] at hev
    simp at hev
  · by_cases h1 : extractSelID props = ""
    · rw [detach_noSel id props s h0 h1] at hev
      rcases hp : alookup s.connectionPool id with _ | m
      · rw [detachLow_missing id true s hp] at hev
        simp at hev
      · rw [detachLow_remove id s m hp] at hev
        simp at hev
        exact ⟨m.conn, m.refCount, hev⟩
    · rw [detach_sel id props s h0 h1] at hev
      rcases hp : alookup s.connectionPool (extractSelID props) with _ | m
      · rw [detachLow_missing _ false s hp] at hev
        simp at hev
      · rw [detachLow_shared _ s m hp] at hev
        simp at hev

/-! ## Concrete states used by counterexamples and witnesses -/

/-- Registry after CreateNonStoredConnection("c1","mock"): one live record
"c1" with refCount 0. -/
def stateC1 : CMState := (CreateNonStoredConnection "c1" "mock" [] (.ok 0) initState).2

/-- stateC1 after FetchConnection("x", selector "c1"): record "c1" has
refCount 1. -/
def stateC1At : CMState :=
  (FetchConnection "x" "mock" [("connectionSelector", PropVal.str "c1")] (.ok 99) stateC1).2

/-- Registry after a Reload whose listed keys "connections.bad.x" (factory
fails) and "connections.mock.x" (factory succeeds) map distinct composite
keys to the same id "x". -/
def reloadConflictState : CMState :=
  ReloadConnection (fun typ _ _ => if typ = "mock" then .ok 0 else .error "boom")
    [("connections.bad.x", []), ("connections.mock.x", [])] initState

/-- Registry after a Reload of the single listed key "connections.t." whose
third segment — the record id — is the empty string. -/
def emptyIdState : CMState :=
  ReloadConnection (fun _ _ _ => .ok 7) [("connections.t.", [])] initState

/-! ## Claim C1 -/

/-- C1 (counterexample): the claim "no live record's refCount ever becomes
negative — including a DetachConnection with a selector naming a live record
whose refCount is already 0" is false.  After CreateNonStoredConnection
creates "c1" (refCount 0), DetachConnection with selector "c1" decrements
unconditionally and leaves "c1" live with refCount -1. -/
theorem C1_counterexample :
    ∃ m : ConnectionMeta,
      alookup (DetachConnection "x" [("connectionSelector", PropVal.str "c1")]
        stateC1).2.1.connectionPool "c1" = some m ∧ m.refCount < 0 :=
  ⟨⟨"c1", "mock", [], 0, -1⟩, by decide, by decide⟩

/-- C1 (amended): for every state whose live records all have refCount ≥ 0,
every public operation preserves that invariant, except that
DetachConnection with a selector needs the selected record (when live) to
have refCount ≥ 1 — a selector-detach at refCount 0 drives it to -1. -/
theorem C1_amended_nonneg_refcount :
    ∀ s : CMState, NonNegRC s →
      (∀ id typ props se dr, NonNegRC (CreateNamedConnection id typ props se dr s).2) ∧
      (∀ id typ props dr, NonNegRC (CreateNonStoredConnection id typ props dr s).2) ∧
      (∀ id typ props dr, NonNegRC (FetchConnection id typ props dr s).2) ∧
      (∀ selId de, NonNegRC (DropNameConnection selId de s).2.1) ∧
      (∀ driver entries, NonNegRC (ReloadConnection driver entries s)) ∧
      (∀ id props, (∀ m, extractSelID props ≠ "" →
          alookup s.connectionPool (extractSelID props) = some m → 1 ≤ m.refCount) →
        NonNegRC (DetachConnection id props s).2.1) := by
  intro s h
  refine ⟨fun id typ props se dr => nonneg_createNamed id typ props se dr s h,
          fun id typ props dr => nonneg_createNonStored id typ props dr s h,
          fun id typ props dr => nonneg_fetch id typ props dr s h,
          fun selId de => nonneg_drop selId de s h,
          fun driver entries => nonneg_reload driver entries s h,
          fun id props hdec => nonneg_detach id props s h hdec⟩

/-- C1 witness: the amended theorem applied to the concrete state with "c1"
at refCount 1 and an anonymous detach. -/
theorem C1_amended_witness :
    NonNegRC (DetachConnection "c1" [] stateC1At).2.1 :=
  (C1_amended_nonneg_refcount stateC1At (by decide)).2.2.2.2.2 "c1" []
    (fun m hne _ => absurd rfl hne)

/-! ## Claim C2 -/

/-- C2 (counterexample): the claim "the registry never invokes Close on a
live connection whose refCount > 0" is false.  With "c1" live at refCount 1
(one attacher), DetachConnection("c1", no selector) takes the
anonymous-removal path and invokes Close while refCount is 1. -/
theorem C2_counterexample :
    (DetachConnection "c1" [] stateC1At).2.2
      = [Event.closeEv 0 "c1" 1 ClosePath.anonDetach] := by decide

/-- C2 (amended): Close is invoked only by DropNameConnection — and there
the record's refCount is ≤ 0 at the moment of the call — or by the
anonymous-detach path of DetachConnection on the caller's id, regardless of
that record's refCount (even when attachers share it).  No other operation
closes a connection. -/
theorem C2_amended_close_discipline :
    ∀ (selId id : String) (de : Option String) (props : Props) (s : CMState),
      (∀ e ∈ (DropNameConnection selId de s).2.2,
        ∃ c i rc, e = Event.closeEv c i rc ClosePath.drop ∧ rc ≤ 0) ∧
      (∀ e ∈ (DetachConnection id props s).2.2,
        ∃ c rc, e = Event.closeEv c id rc ClosePath.anonDetach) :=
  fun selId id de props s =>
    ⟨drop_close_events selId de s, detach_close_events id props s⟩

/-- C2 witness: the amended theorem applied to the Close event emitted by a
successful DropNameConnection of "c1" at refCount 0. -/
theorem C2_amended_witness :
    ∃ c i rc, Event.closeEv 0 "c1" 0 ClosePath.drop
        = Event.closeEv c i rc ClosePath.drop ∧ rc ≤ 0 :=
  (C2_amended_close_discipline "c1" "x" none [] stateC1).1
    (Event.closeEv 0 "c1" 0 ClosePath.drop) (by decide)

/-! ## Claim C3 -/

/-- C3 (counterexample): the claim that every public operation — including a
Reload whose listed keys map "connections.bad.x" and "connections.mock.x" to
the same id "x" — preserves live/failed disjointness is false: that Reload,
with the "bad" factory failing and the "mock" factory succeeding, leaves "x"
in both tables at once. -/
theorem C3_counterexample :
    DisjointTables initState ∧
    (alookup reloadConflictState.connectionPool "x").isSome = true ∧
    (alookup reloadConflictState.failConnection "x").isSome = true ∧
    ¬ DisjointTables reloadConflictState := by decide

/-- C3 (amended): disjointness of the live and failed tables is preserved by
CreateNamedConnection, attach, DetachConnection and DropNameConnection.
CreateNonStoredConnection (and hence FetchConnection, whose selector-less
branch delegates to it) preserves it provided the id has no failed-table
entry — it never cleans the failed table.  ReloadConnection can violate it
when two listed keys share an id with one factory success and one failure. -/
theorem C3_amended_disjointness :
    ∀ s : CMState, DisjointTables s →
      (∀ id typ props se dr, DisjointTables (CreateNamedConnection id typ props se dr s).2) ∧
      (∀ id typ props dr, alookup s.failConnection id = none →
        DisjointTables (CreateNonStoredConnection id typ props dr s).2) ∧
      (∀ id typ props dr, alookup s.failConnection id = none →
        DisjointTables (FetchConnection id typ props dr s).2) ∧
      (∀ id, DisjointTables (attachConnection id s).2) ∧
      (∀ id props, DisjointTables (DetachConnection id props s).2.1) ∧
      (∀ selId de, DisjointTables (DropNameConnection selId de s).2.1) := by
  intro s h
  refine ⟨fun id typ props se dr => disj_createNamed id typ props se dr s h,
          fun id typ props dr hf => disj_createNonStored id typ props dr s h hf,
          fun id typ props dr hf => disj_fetch id typ props dr s h hf,
          fun id => disj_attach id s h,
          fun id props => disj_detach id props s h,
          fun selId de => disj_drop selId de s h⟩

/-- C3 witness: the amended theorem applied to a concrete
CreateNamedConnection on the empty registry. -/
theorem C3_amended_witness :
    DisjointTables (CreateNamedConnection "c1" "mock" [] none (.ok 0) initState).2 :=
  (C3_amended_disjointness initState (by decide)).1 "c1" "mock" [] none (.ok 0)

/-! ## Claim C4 -/

/-- C4 (confirmed): the factory driver fails with "unknown connection type"
and zero factory invocations when the lowercased type is not registered;
a factory error classified transient (IsIOError) makes the retry loop
re-attempt while budget remains; a non-transient factory error is permanent:
the loop stops at that very attempt and returns that error, for every
remaining budget. -/
theorem C4_factory_driver_classification :
    ∀ (register : List (String × Factory)) (typ : String) (fuel : Nat)
      (f : Factory) (attempt : Nat) (e : ConnError),
      (alookup register (strToLower typ) = none →
        createNamedConnectionDrv register typ fuel
          = (.error ⟨"unknown connection type", false⟩, 0)) ∧
      (f attempt = .error e → e.isIO = true →
        retryRun f attempt (fuel + 1) = retryRun f (attempt + 1) fuel) ∧
      (f attempt = .error e → e.isIO = false →
        retryRun f attempt fuel = (.error e, attempt + 1)) := by
  intro register typ fuel f attempt e
  refine ⟨fun h => ?_, fun hf hio => ?_, fun hf hio => ?_⟩
  · unfold createNamedConnectionDrv
    rw [h]
  · rw [retryRun.eq_def, hf]
    simp [hio]
  · rw [retryRun.eq_def, hf]
    simp [hio]

/-- C4 witness: an unregistered type fails at once with no factory call, and
a permanent (non-IO) factory error stops the retry loop after one call. -/
theorem C4_witness :
    createNamedConnectionDrv [("mock", fun _ => .ok 5)] "Bad" 3
      = (.error ⟨"unknown connection type", false⟩, 0) ∧
    retryRun (fun _ => .error ⟨"cfg", false⟩) 0 7 = (.error ⟨"cfg", false⟩, 1) :=
  ⟨(C4_factory_driver_classification [("mock", fun _ => .ok 5)] "Bad" 3
      (fun _ => .error ⟨"cfg", false⟩) 0 ⟨"cfg", false⟩).1 rfl,
   (C4_factory_driver_classification [("mock", fun _ => .ok 5)] "Bad" 7
      (fun _ => .error ⟨"cfg", false⟩) 0 ⟨"cfg", false⟩).2.2 rfl rfl⟩

/-! ## Claim C5 -/

/-- C5 (confirmed): when CreateNamedConnection passes validation and the
duplicate check, the store write succeeds and the factory driver then
fails, the call returns that error, both in-memory tables are unchanged
(in particular the live table does not contain the id), and the store
still holds the entry keyed connections.typ.id — no rollback. -/
theorem C5_factory_failure_frame :
    ∀ (id typ : String) (props : Props) (e : String) (s : CMState),
      id ≠ "" → typ ≠ "" → alookup s.connectionPool id = none →
      (CreateNamedConnection id typ props none (.error e) s).1 = .error e ∧
      (CreateNamedConnection id typ props none (.error e) s).2.connectionPool
        = s.connectionPool ∧
      alookup (CreateNamedConnection id typ props none (.error e) s).2.connectionPool id
        = none ∧
      (CreateNamedConnection id typ props none (.error e) s).2.failConnection
        = s.failConnection ∧
      alookup (CreateNamedConnection id typ props none (.error e) s).2.kvstore
        ("connections." ++ typ ++ "." ++ id) = some props := by
  intro id typ props e s hid htyp hp
  rw [createNamed_driverErr id typ props e s hid htyp hp]
  exact ⟨rfl, rfl, hp, rfl, alookup_ainsert_self _ props s.kvstore⟩

/-- C5 witness: concrete factory failure on the empty registry leaves the
store entry behind. -/
theorem C5_witness :
    alookup (CreateNamedConnection "c1" "mock" [] none (.error "factoryErr")
      initState).2.kvstore ("connections." ++ "mock" ++ "." ++ "c1") = some [] :=
  (C5_factory_failure_frame "c1" "mock" [] "factoryErr" initState
    (by decide) (by decide) rfl).2.2.2.2

/-! ## Claim C6 -/

/-- C6 (confirmed): with non-empty id and typ, Create* fails with
"connection id already been created" (for every store/factory outcome)
exactly when the id is live; a failed-table entry alone does not block
creation; and a successful CreateNamedConnection removes any failed-table
entry under the id. -/
theorem C6_duplicate_check :
    ∀ (id typ : String) (props : Props) (s : CMState), id ≠ "" → typ ≠ "" →
      ((∀ se dr, (CreateNamedConnection id typ props se dr s).1
          = .error ("connection " ++ id ++ " already been created"))
        ↔ (alookup s.connectionPool id).isSome = true) ∧
      ((∀ dr, (CreateNonStoredConnection id typ props dr s).1
          = .error ("connection " ++ id ++ " already been created"))
        ↔ (alookup s.connectionPool id).isSome = true) ∧
      (alookup s.connectionPool id = none →
        ∀ c, (CreateNamedConnection id typ props none (.ok c) s).1 = .ok c) ∧
      (∀ se dr c, (CreateNamedConnection id typ props se dr s).1 = .ok c →
        alookup (CreateNamedConnection id typ props se dr s).2.failConnection id
          = none) := by
  intro id typ props s hid htyp
  refine ⟨⟨fun hall => ?_, fun hs se dr => ?_⟩,
          ⟨fun hall => ?_, fun hs dr => ?_⟩, fun hp c => ?_, fun se dr c hok => ?_⟩
  · by_contra hs
    have hp : alookup s.connectionPool id = none := by
      rcases h : alookup s.connectionPool id with _ | m
      · rfl
      · rw [h] at hs; simp at hs
    have h0 := hall none (.ok 0)
    rw [createNamed_ok id typ props 0 s hid htyp hp] at h0
    simp at h0
  · rcases h : alookup s.connectionPool id with _ | m
    · rw [h] at hs; simp at hs
    · rw [createNamed_dup id typ props se dr s m hid htyp h]
  · by_contra hs
    have hp : alookup s.connectionPool id = none := by
      rcases h : alookup s.connectionPool id with _ | m
      · rfl
      · rw [h] at hs; simp at hs
    have h0 := hall (.ok 0)
    rw [createNonStored_ok id typ props 0 s hid htyp hp] at h0
    simp at h0
  · rcases h : alookup s.connectionPool id with _ | m
    · rw [h] at hs; simp at hs
    · rw [createNonStored_dup id typ props dr s m hid htyp h]
  · rw [createNamed_ok id typ props c s hid htyp hp]
  · rcases hp : alookup s.connectionPool id with _ | m
    · rcases se with _ | e
      · cases dr with
        | error e =>
          rw [createNamed_driverErr id typ props e s hid htyp hp] at hok
          simp at hok
        | ok c' =>
          rw [createNamed_ok id typ props c' s hid htyp hp]
          by_cases hf : (alookup s.failConnection id).isSome
          · rw [if_pos hf]
            exact alookup_aerase_self id s.failConnection
          · rw [if_neg hf]
            exact Option.not_isSome_iff_eq_none.mp hf
      · rw [createNamed_storeErr id typ props e dr s hid htyp hp] at hok
        simp at hok
    · rw [createNamed_dup id typ props se dr s m hid htyp hp] at hok
      simp at hok

/-- C6 witness: creating "c1" on the empty registry succeeds. -/
theorem C6_witness :
    (CreateNamedConnection "c1" "mock" [] none (.ok 0) initState).1 = .ok 0 :=
  ((C6_duplicate_check "c1" "mock" [] initState (by decide) (by decide)).2.2.1) rfl 0

/-! ## Claim C7 -/

/-- C7 (confirmed): for a live record sel with refCount n, a successful
FetchConnection carrying selector sel (attach) followed by a
DetachConnection carrying selector sel leaves the record with refCount n:
the round trip is the identity on refCount (indeed on the whole record). -/
theorem C7_attach_detach_roundtrip :
    ∀ (x y typ sel : String) (propsF propsD : Props) (dr : Except String Nat)
      (s : CMState) (m : ConnectionMeta),
      x ≠ "" → y ≠ "" → sel ≠ "" →
      extractSelID propsF = sel → extractSelID propsD = sel →
      alookup s.connectionPool sel = some m →
      (FetchConnection x typ propsF dr s).1 = .ok m.conn ∧
      alookup (DetachConnection y propsD
          (FetchConnection x typ propsF dr s).2).2.1.connectionPool sel = some m := by
  intro x y typ sel propsF propsD dr s m hx hy hsel hF hD hp
  obtain ⟨mID, mTyp, mProps, mconn, mrc⟩ := m
  have hFne : extractSelID propsF ≠ "" := by rw [hF]; exact hsel
  have hDne : extractSelID propsD ≠ "" := by rw [hD]; exact hsel
  have h1 : FetchConnection x typ propsF dr s
      = (.ok mconn,
         { s with connectionPool :=
             ainsert sel ⟨mID, mTyp, mProps, mconn, mrc + 1⟩ s.connectionPool }) := by
    rw [fetch_sel x typ propsF dr s hx hFne, hF]
    exact attach_ok sel s ⟨mID, mTyp, mProps, mconn, mrc⟩ hsel hp
  rw [h1]
  refine ⟨rfl, ?_⟩
  have hp1 : alookup (ainsert sel (⟨mID, mTyp, mProps, mconn, mrc + 1⟩ : ConnectionMeta)
      s.connectionPool) sel = some ⟨mID, mTyp, mProps, mconn, mrc + 1⟩ :=
    alookup_ainsert_self sel _ s.connectionPool
  have h2 : DetachConnection y propsD
      ({ s with connectionPool :=
          ainsert sel ⟨mID, mTyp, mProps, mconn, mrc + 1⟩ s.connectionPool } : CMState)
      = (.ok (),
         (⟨ainsert sel ⟨mID, mTyp, mProps, mconn, mrc + 1 - 1⟩
             (ainsert sel ⟨mID, mTyp, mProps, mconn, mrc + 1⟩ s.connectionPool),
           s.failConnection, s.kvstore⟩ : CMState),
         []) := by
    rw [detach_sel y propsD _ hy hDne, hD,
        detachLow_shared sel _ ⟨mID, mTyp, mProps, mconn, mrc + 1⟩ hp1]
  rw [h2]
  show alookup (ainsert sel ⟨mID, mTyp, mProps, mconn, mrc + 1 - 1⟩
      (ainsert sel ⟨mID, mTyp, mProps, mconn, mrc + 1⟩ s.connectionPool)) sel
    = some ⟨mID, mTyp, mProps, mconn, mrc⟩
  rw [alookup_ainsert_self]
  have h3 : mrc + 1 - 1 = mrc := by omega
  rw [h3]

/-- C7 witness: the round trip on the concrete record "c1" at refCount 0. -/
theorem C7_witness :
    (FetchConnection "x" "mock" [("connectionSelector", PropVal.str "c1")]
      (.ok 99) stateC1).1 = .ok 0 ∧
    alookup (DetachConnection "y" [("connectionSelector", PropVal.str "c1")]
      (FetchConnection "x" "mock" [("connectionSelector", PropVal.str "c1")]
        (.ok 99) stateC1).2).2.1.connectionPool "c1"
      = some ⟨"c1", "mock", [], 0, 0⟩ :=
  C7_attach_detach_roundtrip "x" "y" "mock" "c1"
    [("connectionSelector", PropVal.str "c1")]
    [("connectionSelector", PropVal.str "c1")] (.ok 99) stateC1
    ⟨"c1", "mock", [], 0, 0⟩ (by decide) (by decide) (by decide) rfl rfl (by decide)

/-! ## Claim C8 -/

/-- C8 (confirmed): whenever DropNameConnection with a non-empty id returns
an error — reference held or store-delete failure — the state is unchanged
and no Close is invoked (no events), so the live record stays addressable. -/
theorem C8_drop_error_frame :
    ∀ (selId : String) (de : Option String) (s : CMState) (e : String),
      selId ≠ "" →
      (DropNameConnection selId de s).1 = .error e →
      (DropNameConnection selId de s).2.1 = s ∧
      (DropNameConnection selId de s).2.2 = [] := by
  intro selId de s e h0 herr
  rcases hp : alookup s.connectionPool selId with _ | m
  · rcases hf : alookup s.failConnection selId with _ | v
    · rw [drop_absent selId de s h0 hp hf] at herr
      simp at herr
    · rw [drop_failTable selId de s h0 hp (by rw [hf]; rfl)] at herr
      simp at herr
  · by_cases h2 : m.refCount > 0
    · rw [drop_referenced selId de s m h0 hp h2]
      exact ⟨rfl, rfl⟩
    · rcases de with _ | e'
      · rw [drop_ok selId s m h0 hp h2] at herr
        simp at herr
      · rw [drop_storeErr selId e' s m h0 hp h2]
        exact ⟨rfl, rfl⟩

/-- C8 witness: dropping "c1" while its refCount is 1 errors and leaves the
state intact, with no Close event. -/
theorem C8_witness :
    (DropNameConnection "c1" none stateC1At).2.1 = stateC1At ∧
    (DropNameConnection "c1" none stateC1At).2.2 = [] :=
  C8_drop_error_frame "c1" none stateC1At
    "connection c1 can't be dropped due to reference" (by decide) rfl

/-! ## Claim C9 -/

/-- C9 (confirmed): a props bag that is empty, carries a non-string value
under "connectionSelector", or carries the empty string there, is treated
as selector-absent: FetchConnection delegates to CreateNonStoredConnection
under the caller's id, and DetachConnection takes the anonymous path on the
caller's id (Close and removal, no refCount decrement). -/
theorem C9_selector_absent_forms :
    ∀ (id typ : String) (props : Props) (dr : Except String Nat) (s : CMState),
      id ≠ "" →
      (props = [] ∨
        (∃ v, alookup props "connectionSelector" = some v ∧ ∀ t, v ≠ PropVal.str t) ∨
        alookup props "connectionSelector" = some (PropVal.str "")) →
      extractSelID props = "" ∧
      FetchConnection id typ props dr s = CreateNonStoredConnection id typ props dr s ∧
      DetachConnection id props s
        = (.ok (), (detachConnection id true s).1, (detachConnection id true s).2) := by
  intro id typ props dr s hid hcase
  have hsel : extractSelID props = "" := by
    rcases hcase with h | ⟨v, hv, hns⟩ | h
    · simp [extractSelID, h]
    · by_cases hemp : props = []
      · simp [extractSelID, hemp]
      · cases v with
        | str t => exact absurd rfl (hns t)
        | num n => simp [extractSelID, hemp, hv]
        | boolv b => simp [extractSelID, hemp, hv]
        | nested => simp [extractSelID, hemp, hv]
    · by_cases hemp : props = []
      · simp [extractSelID, hemp]
      · simp [extractSelID, hemp, h]
  exact ⟨hsel, fetch_noSel id typ props dr s hid hsel,
         detach_noSel id props s hid hsel⟩

/-- C9 witness: a non-string selector value is treated as absent. -/
theorem C9_witness :
    extractSelID [("connectionSelector", PropVal.num 5)] = "" ∧
    FetchConnection "c1" "mock" [("connectionSelector", PropVal.num 5)] (.ok 3) stateC1
      = CreateNonStoredConnection "c1" "mock"
          [("connectionSelector", PropVal.num 5)] (.ok 3) stateC1 ∧
    DetachConnection "c1" [("connectionSelector", PropVal.num 5)] stateC1
      = (.ok (), (detachConnection "c1" true stateC1).1,
         (detachConnection "c1" true stateC1).2) :=
  C9_selector_absent_forms "c1" "mock" [("connectionSelector", PropVal.num 5)]
    (.ok 3) stateC1 (by decide)
    (Or.inr (Or.inl ⟨PropVal.num 5, rfl, fun t h => PropVal.noConfusion h⟩))

/-! ## Claim C10 -/

/-- C10 (counterexample): the claim "for every live record with id s ... a
FetchConnection whose props carry connectionSelector = s succeeds, returns
that record's connection, and increments its refCount" fails for the empty
id.  Reload of the listed key "connections.t." creates a live record with
id "" (the key splits into three segments), yet FetchConnection with
connectionSelector = "" treats the selector as absent, delegates to the
anonymous-create path (here: the factory fails, so the call fails), and
leaves that record's refCount untouched. -/
theorem C10_counterexample :
    alookup emptyIdState.connectionPool "" = some ⟨"", "t", [], 7, 0⟩ ∧
    (FetchConnection "x" "t" [("connectionSelector", PropVal.str "")] (.error "boom")
        emptyIdState).1 = .error "boom" ∧
    alookup (FetchConnection "x" "t" [("connectionSelector", PropVal.str "")]
        (.error "boom") emptyIdState).2.connectionPool "" = some ⟨"", "t", [], 7, 0⟩ :=
  ⟨by decide, rfl, by decide⟩

/-- C10 (amended): for every live record with a non-empty id sel — however
created — a FetchConnection whose props carry connectionSelector = sel
succeeds, returns that record's existing connection, increments its
refCount by exactly 1, and touches no other record. -/
theorem C10_amended_attach_uniform :
    ∀ (x typ sel : String) (props : Props) (dr : Except String Nat)
      (s : CMState) (m : ConnectionMeta),
      x ≠ "" → sel ≠ "" →
      alookup props "connectionSelector" = some (PropVal.str sel) →
      alookup s.connectionPool sel = some m →
      (FetchConnection x typ props dr s).1 = .ok m.conn ∧
      alookup (FetchConnection x typ props dr s).2.connectionPool sel
        = some { m with refCount := m.refCount + 1 } ∧
      (∀ j, j ≠ sel →
        alookup (FetchConnection x typ props dr s).2.connectionPool j
          = alookup s.connectionPool j) := by
  intro x typ sel props dr s m hx hsel halp hp
  have hne : props ≠ [] := by
    intro h
    rw [h] at halp
    simp [alookup] at halp
  have hselx : extractSelID props = sel := by
    simp [extractSelID, hne, halp]
  have hFne : extractSelID props ≠ "" := by rw [hselx]; exact hsel
  rw [fetch_sel x typ props dr s hx hFne, hselx, attach_ok sel s m hsel hp]
  refine ⟨rfl, ?_, ?_⟩
  · show alookup (ainsert sel { m with refCount := m.refCount + 1 } s.connectionPool) sel
      = some { m with refCount := m.refCount + 1 }
    exact alookup_ainsert_self sel _ s.connectionPool
  · intro j hj
    show alookup (ainsert sel { m with refCount := m.refCount + 1 } s.connectionPool) j
      = alookup s.connectionPool j
    exact alookup_ainsert_ne sel j _ s.connectionPool hj

/-- C10 witness: attaching to the anonymous record "c1" of stateC1. -/
theorem C10_amended_witness :
    (FetchConnection "x" "mock" [("connectionSelector", PropVal.str "c1")]
      (.ok 99) stateC1).1 = .ok 0 ∧
    alookup (FetchConnection "x" "mock" [("connectionSelector", PropVal.str "c1")]
      (.ok 99) stateC1).2.connectionPool "c1" = some ⟨"c1", "mock", [], 0, 1⟩ :=
  ⟨(C10_amended_attach_uniform "x" "mock" "c1"
      [("connectionSelector", PropVal.str "c1")] (.ok 99) stateC1
      ⟨"c1", "mock", [], 0, 0⟩ (by decide) (by decide) rfl (by decide)).1,
   (C10_amended_attach_uniform "x" "mock" "c1"
      [("connectionSelector", PropVal.str "c1")] (.ok 99) stateC1
      ⟨"c1", "mock", [], 0, 0⟩ (by decide) (by decide) rfl (by decide)).2.1⟩

end Kuiper
